import Mathlib

/-!
Verification of the dialogue context-assembly and conversation-state engine
of the astrologer-ai repository (src/src/core/llm_bridge.py,
src/src/memory/cached_context.py, src/src/utils/identity_guard.py).

Python strings are modelled as Lean `String`; Python `in` on strings is
substring containment; `str.lower()` is ASCII lowercasing (all keyword
tables in the source are ASCII); Python floats in fact-importance scores
are idealised as rationals.  Fallible Python calls are modelled with
`Except`.
-/

namespace AstroBridge

/-- Python `str.lower()` (ASCII case folding; the source's keyword tables
are all ASCII, and the Indic scripts involved have no case). -/
def lower (s : String) : String := String.mk (s.toList.map Char.toLower)

/-- Python `str.upper()` (ASCII). -/
def upper (s : String) : String := String.mk (s.toList.map Char.toUpper)

/-- Python `str.strip()`. -/
def pyStrip (s : String) : String :=
  String.mk (((s.toList.dropWhile Char.isWhitespace).reverse.dropWhile
    Char.isWhitespace).reverse)

/-- Python `s.endswith(suffix)`. -/
def strEndsWith (s suffix : String) : Bool :=
  List.isPrefixOf suffix.toList.reverse s.toList.reverse

/-- Does `needle` occur as a contiguous sublist of the second argument? -/
def isInfixOfB (needle : List Char) : List Char → Bool
  | [] => needle.isEmpty
  | c :: cs => List.isPrefixOf needle (c :: cs) || isInfixOfB needle cs

/-- Python `needle in hay` for strings: substring containment. -/
def substrOf (needle hay : String) : Bool :=
  isInfixOfB needle.toList hay.toList

/-- Python `any(w in q for w in ws)`. -/
def anyIn (ws : List String) (q : String) : Bool := ws.any (fun w => substrOf w q)

/-- Python `sum(1 for w in ws if w in t)`. -/
def countIn (ws : List String) (t : String) : Nat :=
  ws.countP (fun w => substrOf w t)

/-- Accumulator pass behind `pyWords`. -/
def splitWsAux : List Char → List Char → List String
  | acc, [] => if acc.isEmpty then [] else [String.mk acc.reverse]
  | acc, c :: cs =>
    if c.isWhitespace then
      if acc.isEmpty then splitWsAux [] cs
      else String.mk acc.reverse :: splitWsAux [] cs
    else splitWsAux (c :: acc) cs

/-- Python `s.split()` with no argument: split on whitespace runs,
dropping empty pieces. -/
def pyWords (s : String) : List String := splitWsAux [] s.toList

/-- Python `l[-n:]`. -/
def lastN (n : Nat) (l : List α) : List α := l.drop (l.length - n)

/-- Python `sep.join(l)`. -/
def joinSep (sep : String) : List String → String
  | [] => ""
  | h :: t => t.foldl (fun a b => a ++ sep ++ b) h

/-- Python truthiness of an optional string (`None` and `""` are falsy). -/
def isTruthyOpt : Option String → Bool
  | none => false
  | some s => s ≠ ""

/-- `re.search('[ఀ-౿]', text)`-style script-range test. -/
def hasCharInRange (lo hi : Nat) (s : String) : Bool :=
  s.toList.any (fun c => lo ≤ c.toNat && c.toNat ≤ hi)

/-! ## Language detection (`LLMBridge._detect_language`)

The source also computes Kannada/Malayalam/Bengali/Gujarati/Punjabi/Marathi
romanised-indicator scores, but those scores are never read by any branch
of the decision ladder; only the Telugu, Tamil, Hindi and English scores
(and the script-range checks) influence the result, so only those tables
are reproduced here. -/

def telugu_indicators : List String :=
  ["naaku", "naa", "nenu", "meeru", "mee", "emi", "ela", "ekkada", "eppudu",
   "enduku", "gurinchi", "tho", "lo", "ki", "ku", "ni", "nu", "chala",
   "bagundi", "ledu", "undi", "unnadi", "chesanu", "chestanu", "udyogam",
   "pani", "intlo", "bayata", "roju", "nelalu", "samvatsaralu", "matladali",
   "vastundi", "vastanu", "cheppandi", "kavali", "kavalenu"]

def tamil_indicators : List String :=
  ["naan", "nee", "enna", "eppadi", "enga", "eppo", "yean",
   "ungal", "enakku", "unakku", "romba", "nalla", "illa",
   "irukku", "pannanum", "vela", "veedu", "pesanum", "pathi",
   "seiyareengal", "theriyum", "purinjuthu", "varum", "poren",
   "sollunga", "venum", "vendam", "mudiyum", "mudiyathu"]

def hindi_indicators : List String :=
  ["hai", "ho", "hain", "ka", "ki", "ke", "ko", "se", "mein", "par",
   "nahi", "nhi", "kyun", "kya", "kaise", "kab", "kahan", "kitna",
   "mujhe", "tumhe", "aapko", "mera", "tera", "hamara", "apna",
   "accha", "theek", "thik", "acha", "bahut", "zyada", "kam",
   "dhanyawad", "shukriya", "namaste", "pranam", "mahine", "saal"]

def tamil_unique : List String :=
  ["enakku", "pesanum", "pathi", "nalla", "romba", "eppadi", "ungal"]

def telugu_unique : List String :=
  ["naaku", "matladali", "gurinchi", "meeru", "bagundi", "undi"]

def english_words : List String :=
  ["the", "and", "you", "are", "is", "am", "my", "your", "what", "when",
   "where", "why", "how"]

/-- `LLMBridge._detect_language`.  The Telugu/Tamil tie-break block returns
only when one unique-word score strictly exceeds the other; otherwise the
source falls through to the score ladder, modelled with an `Option`. -/
def detect_language (text : String) : String :=
  let textLower := lower text
  if hasCharInRange 0xC00 0xC7F text then "telugu"
  else if hasCharInRange 0xB80 0xBFF text then "tamil"
  else if hasCharInRange 0xC80 0xCFF text then "kannada"
  else if hasCharInRange 0xD00 0xD7F text then "malayalam"
  else if hasCharInRange 0x980 0x9FF text then "bengali"
  else if hasCharInRange 0xA80 0xAFF text then "gujarati"
  else if hasCharInRange 0xA00 0xA7F text then "punjabi"
  else
    let teluguScore := countIn telugu_indicators textLower
    let tamilScore := countIn tamil_indicators textLower
    let hindiScore0 := countIn hindi_indicators textLower
    let hindiScore :=
      if hasCharInRange 0x900 0x97F text then hindiScore0 + 5 else hindiScore0
    let tieResult : Option String :=
      if teluguScore > 0 && tamilScore > 0 then
        let tamilUniqueScore := countIn tamil_unique textLower
        let teluguUniqueScore := countIn telugu_unique textLower
        if tamilUniqueScore > teluguUniqueScore then some "tamil"
        else if teluguUniqueScore > tamilUniqueScore then some "telugu"
        else none
      else none
    match tieResult with
    | some r => r
    | none =>
      if teluguScore ≥ 2 then "telugu"
      else if tamilScore ≥ 2 then "tamil"
      else if hindiScore ≥ 2 then "hinglish"
      else
        let englishScore := countIn english_words textLower
        if englishScore > max hindiScore (max teluguScore tamilScore) then "english"
        else "hinglish"

/-! ## Answer heuristic (`LLMBridge._is_answer_to_question`) -/

def interrogative_markers : List String :=
  ["?", "kya", "kaise", "kab", "kyun", "kahan", "kitna", "what", "how",
   "when", "why", "where"]

def time_indicators : List String :=
  ["mahine", "saal", "week", "month", "year", "din", "time", "lagbhag",
   "around", "about"]

def yes_no_tokens : List String :=
  ["haan", "ha", "yes", "hmm", "theek", "ok", "nhi", "nahi", "no", "na"]

def time_units : List String :=
  ["saal", "mahine", "din", "week", "month", "year"]

/-- One attempted match of `\d+\s*(saal|mahine|din|week|month|year)` at the
head of `cs` (the unit alternatives all start with letters, so the greedy
`\d+` and `\s*` cannot backtrack into a different split). -/
def numTimeAt (cs : List Char) : Bool :=
  let ds := cs.takeWhile Char.isDigit
  let rest := (cs.drop ds.length).dropWhile Char.isWhitespace
  !ds.isEmpty && time_units.any (fun u => List.isPrefixOf u.toList rest)

/-- `re.search(r'\d+\s*(saal|mahine|din|week|month|year)', s)` as a boolean. -/
def hasNumTime (s : String) : Bool := s.toList.tails.any numTimeAt

/-- `LLMBridge._is_answer_to_question`. -/
def is_answer_to_question (user_query : String) (last_question : Option String) : Bool :=
  if isTruthyOpt last_question then
    let queryLower := lower user_query
    let isNewQuestion := anyIn interrogative_markers queryLower
    let hasTime := anyIn time_indicators queryLower
    let isYesNo := yes_no_tokens.contains (pyStrip queryLower)
    let isShortAnswer := decide ((pyWords queryLower).length ≤ 5) && !isNewQuestion
    let hasNumberTime := hasNumTime queryLower
    (isShortAnswer && !isNewQuestion) || hasTime || isYesNo || hasNumberTime
  else false

/-! ## Conversation state (`LLMBridge.__init__` / `reset_conversation`) -/

/-- A value stored in `conversation_state["user_details"]`: the source
stores either a raw utterance string or the flag `True`. -/
inductive UDetail
  | str (s : String)
  | flag (b : Bool)
deriving DecidableEq

/-- Assoc-list update with Python-dict overwrite semantics. -/
def insertUD (m : List (String × UDetail)) (k : String) (v : UDetail) :
    List (String × UDetail) :=
  match m with
  | [] => [(k, v)]
  | (k2, v2) :: rest => if k2 = k then (k, v) :: rest else (k2, v2) :: insertUD rest k v

/-- `conversation_state["topic_context"]`; the freshly-initialised empty dict
reads both keys as `None`. -/
structure TopicContext where
  subtopic : Option String
  emotional_tone : Option String
deriving DecidableEq

/-- The per-session mutable `conversation_state` dict of `LLMBridge`. -/
structure ConvState where
  current_topic : Option String
  has_asked_questions : Bool
  user_details : List (String × UDetail)
  conversation_stage : String
  previous_topics : List (Option String)
  language_preference : String
  last_question_asked : Option String
  waiting_for_answer : Bool
  topic_context : TopicContext
deriving DecidableEq

/-- The dict literal assigned in `__init__` and in `reset_conversation`. -/
def init_conversation_state : ConvState :=
  { current_topic := none
    has_asked_questions := false
    user_details := []
    conversation_stage := "initial"
    previous_topics := []
    language_preference := "hinglish"
    last_question_asked := none
    waiting_for_answer := false
    topic_context := ⟨none, none⟩ }

/-- `LLMBridge.reset_conversation`. -/
def reset_conversation : ConvState := init_conversation_state

/-! ## Intent records (`LLMBridge._analyze_query_intent` return dicts) -/

/-- The `topic_details` sub-dict of an intent record.  `topic` is optional
because the `answer_received` branch copies `conversation_state
["current_topic"]`, which can be `None`. -/
structure TopicDetails where
  topic : Option String
  subtopic : Option String
  is_new_topic : Bool
  needs_clarification : Bool
  emotional_tone : String
deriving DecidableEq

/-- An intent record as returned by `_analyze_query_intent` (all branches
of the source populate `topic_details` and `language`; `greeting_type`
is present only on the greeting branches and modelled as an option). -/
structure IntentAnalysis where
  intent : String
  urgency : String
  needs_details : Bool
  greeting_type : Option String
  topic_details : TopicDetails
  language : String
deriving DecidableEq

/-! ## Keyword tables of `_analyze_query_intent` -/

def greeting_words : List String := ["hi", "hello", "hey", "namaste", "namaskar"]

def how_are_you_phrases : List String :=
  ["kese ho", "kaise ho", "kese hain", "kaise hain", "how are you", "how r u"]

def gratitude_words : List String :=
  ["dhanyawad", "dhanyavaad", "thanks", "thank you", "shukriya", "thanku"]

def problem_indicators : List String :=
  ["problem", "dikkat", "mushkil", "tension", "pareshan", "chinta",
   "worry", "stress", "nahi ho raha", "nahi mil raha", "fail",
   "kharab", "bura", "ladaai", "fight", "breakup", "chhut", "tod",
   "loss", "harna", "haar", "gaya", "gayi", "gaye", "samasya",
   "issue", "difficulty", "trouble", "concern", "anxious"]

def money_words : List String :=
  ["paisa", "money", "dhan", "wealth", "finance", "loan", "karza", "udhar",
   "investment", "savings", "income", "financial", "pesa"]

def career_words : List String :=
  ["job", "career", "naukri", "kaam", "business", "work", "office",
   "promotion", "salary", "interview", "company", "boss"]

def legal_words : List String :=
  ["legal", "case", "court", "judge", "lawyer", "judgment", "decision",
   "law", "suit"]

def love_words : List String :=
  ["love", "pyaar", "gf", "bf", "girlfriend", "boyfriend", "crush",
   "shaadi", "marriage", "relationship", "partner", "wife", "husband"]

def health_words : List String :=
  ["health", "tabiyat", "bimar", "sick", "ill", "dard", "pita", "takleef",
   "bimari", "operation"]

def education_words : List String :=
  ["study", "padhai", "exam", "college", "university", "result", "marks",
   "percentage", "fail", "pass", "admission"]

def decision_words : List String :=
  ["kya karu", "kya kru", "decision", "faisla", "confused", "samlajh",
   "option", "choose", "select"]

def remedy_words : List String :=
  ["upay", "remedy", "solution", "ilaj", "totka", "kya karu", "kya kru",
   "kaise thik", "kaise theek"]

def good_news_words : List String :=
  ["ho gaya", "ho gayi", "mil gaya", "aa gaya", "thik hai", "accha hua",
   "success", "kamyab", "pass", "mila", "mili"]

def simple_responses : List String :=
  ["haan", "ha", "yes", "ok", "theek", "accha", "hmm", "han", "acha",
   "thik", "no", "nhi", "nahi"]

def about_you_words : List String :=
  ["aap kaha", "where are you", "aap kaun", "who are you", "aap kaise",
   "how are you"]

/-- The starting `topic_details` dict of step 5 of `_analyze_query_intent`. -/
def baseTopicDetails : TopicDetails :=
  { topic := some "general", subtopic := none, is_new_topic := true,
    needs_clarification := true, emotional_tone := "neutral" }

/-- Money/financial context block. -/
def tag_money (td : TopicDetails) (query : String) (is_problem : Bool) : TopicDetails :=
  if anyIn money_words query then
    { td with topic := some "money",
              emotional_tone := if is_problem then "worried" else "hopeful",
              subtopic := some "income_issue" }
  else td

/-- Career/job context block. -/
def tag_career (td : TopicDetails) (query : String) (is_problem : Bool) : TopicDetails :=
  if anyIn career_words query then
    let td2 : TopicDetails := { td with topic := some "career" }
    if substrOf "nahi mil raha" query || substrOf "interview" query then
      { td2 with subtopic := some "job_search", emotional_tone := "stressed" }
    else if substrOf "promotion" query || substrOf "badh" query
         || substrOf "growth" query then
      { td2 with subtopic := some "growth", emotional_tone := "hopeful" }
    else if substrOf "business" query then
      { td2 with subtopic := some "business", emotional_tone := "concerned" }
    else
      { td2 with emotional_tone := if is_problem then "stressed" else "curious" }
  else td

/-- Legal/law context block. -/
def tag_legal (td : TopicDetails) (query : String) : TopicDetails :=
  if anyIn legal_words query then
    { td with topic := some "legal", emotional_tone := "stressed",
              subtopic := some "legal_case" }
  else td

/-- Love/relationship context block. -/
def tag_love (td : TopicDetails) (query : String) (is_problem : Bool) : TopicDetails :=
  if anyIn love_words query then
    let td2 : TopicDetails := { td with topic := some "love" }
    if substrOf "breakup" query || substrOf "chhut" query
       || substrOf "tod" query || substrOf "alag" query then
      { td2 with subtopic := some "breakup", emotional_tone := "sad" }
    else if substrOf "ladaai" query || substrOf "fight" query
         || substrOf "jhagda" query then
      { td2 with subtopic := some "conflict", emotional_tone := "upset" }
    else if substrOf "shaadi" query || substrOf "marriage" query
         || substrOf "vivah" query then
      { td2 with subtopic := some "marriage", emotional_tone := "curious" }
    else if substrOf "milna" query || substrOf "mil jaye" query
         || substrOf "pata" query then
      { td2 with subtopic := some "meeting", emotional_tone := "hopeful" }
    else
      { td2 with emotional_tone := if !is_problem then "romantic" else "concerned" }
  else td

/-- Health context block. -/
def tag_health (td : TopicDetails) (query : String) : TopicDetails :=
  if anyIn health_words query then
    let td2 : TopicDetails := { td with topic := some "health", emotional_tone := "concerned" }
    if substrOf "mummy" query || substrOf "mother" query || substrOf "maa" query then
      { td2 with subtopic := some "mother_health" }
    else if substrOf "papa" query || substrOf "father" query
         || substrOf "baap" query then
      { td2 with subtopic := some "father_health" }
    else if substrOf "bhai" query || substrOf "behen" query
         || substrOf "sister" query || substrOf "brother" query then
      { td2 with subtopic := some "sibling_health" }
    else
      { td2 with subtopic := some "personal_health" }
  else td

/-- Education context block. -/
def tag_education (td : TopicDetails) (query : String) (is_problem : Bool) : TopicDetails :=
  if anyIn education_words query then
    let tone := if is_problem then "anxious" else "hopeful"
    let td2 : TopicDetails := { td with topic := some "education", emotional_tone := tone }
    if substrOf "exam" query then { td2 with subtopic := some "exams" }
    else if substrOf "result" query || substrOf "marks" query then
      { td2 with subtopic := some "results" }
    else if substrOf "admission" query then { td2 with subtopic := some "admission" }
    else td2
  else td

/-- Life-decisions context block. -/
def tag_decision (td : TopicDetails) (query : String) : TopicDetails :=
  if anyIn decision_words query then
    { td with topic := some "decision", emotional_tone := "confused" }
  else td

/-- Steps 4–5 of `_analyze_query_intent`: the dict of topic details is
threaded through the per-topic keyword blocks in source order (money,
career, legal, love, health, education, decision), each matching block
overwriting the fields it assigns (lines 643–730 of the source). -/
def computeTopicDetails (query : String) (is_problem : Bool) : TopicDetails :=
  tag_decision
    (tag_education
      (tag_health
        (tag_love
          (tag_legal
            (tag_career (tag_money baseTopicDetails query is_problem) query is_problem)
            query)
          query is_problem)
        query)
      query is_problem)
    query

/-- A conversation-history entry (`{"role": ..., "content": ...}`). -/
structure HMsg where
  role : String
  content : String
deriving DecidableEq

/-- Language-preference vote at the top of `_analyze_query_intent`
(lines 542–557): majority over the user messages among the last four
history entries, counting `hinglish` detections against everything else. -/
def apply_language_vote (st : ConvState) (conversation_history : List HMsg) : ConvState :=
  if conversation_history ≠ [] then
    let lastMsgs := lastN 4 conversation_history
    let hindi_count := lastMsgs.countP
      (fun m => m.role == "user" && detect_language m.content == "hinglish")
    let english_count := lastMsgs.countP
      (fun m => m.role == "user" && !(detect_language m.content == "hinglish"))
    if hindi_count > english_count then { st with language_preference := "hinglish" }
    else if english_count > hindi_count then { st with language_preference := "english" }
    else st
  else st

/-- The `topic_details` dict shared by the greeting and gratitude branches. -/
def generalTopicDetails (tone : String) : TopicDetails :=
  { topic := some "general", subtopic := none, is_new_topic := false,
    needs_clarification := false, emotional_tone := tone }

/-- `LLMBridge._analyze_query_intent`.  The source mutates
`self.conversation_state` (the language vote) before classifying, so the
translation returns the updated state together with the intent record. -/
def analyze_query_intent (st : ConvState) (user_query : String)
    (conversation_history : List HMsg) : ConvState × IntentAnalysis :=
  let query := pyStrip (lower user_query)
  let current_language := detect_language user_query
  let st := apply_language_vote st conversation_history
  -- 1. answer to our last question
  if st.waiting_for_answer && isTruthyOpt st.last_question_asked
     && is_answer_to_question user_query st.last_question_asked then
    (st, { intent := "answer_received", urgency := "medium", needs_details := false,
           greeting_type := none,
           topic_details :=
             { topic := st.current_topic, subtopic := st.topic_context.subtopic,
               is_new_topic := false, needs_clarification := false,
               emotional_tone := st.topic_context.emotional_tone.getD "neutral" },
           language := current_language })
  -- 2. greetings
  else if (anyIn greeting_words query || anyIn how_are_you_phrases query)
          && decide ((pyWords query).length ≤ 4) then
    if conversation_history.length < 2 then
      (st, { intent := "greeting", urgency := "low", needs_details := false,
             greeting_type := some "first",
             topic_details := generalTopicDetails "neutral",
             language := current_language })
    else
      (st, { intent := "greeting", urgency := "low", needs_details := false,
             greeting_type := some "return",
             topic_details := generalTopicDetails "neutral",
             language := current_language })
  -- 3. gratitude
  else if anyIn gratitude_words query then
    (st, { intent := "gratitude", urgency := "low", needs_details := false,
           greeting_type := none,
           topic_details := generalTopicDetails "grateful",
           language := current_language })
  else
    -- 4.–6. problem indicators, topic tagging and topic continuity
    let is_problem := anyIn problem_indicators query
    let topic_details := computeTopicDetails query is_problem
    let topic_details :=
      if isTruthyOpt st.current_topic && topic_details.topic = st.current_topic then
        let topic_details := { topic_details with is_new_topic := false }
        if st.has_asked_questions then
          { topic_details with needs_clarification := false }
        else topic_details
      else topic_details
    -- 7. remedy requests
    if anyIn remedy_words query then
      (st, { intent := "remedy_request", urgency := "medium", needs_details := false,
             greeting_type := none, topic_details := topic_details,
             language := current_language })
    -- 8. update / good news
    else if anyIn good_news_words query then
      (st, { intent := "update", urgency := "low", needs_details := false,
             greeting_type := none, topic_details := topic_details,
             language := current_language })
    -- 9. simple responses
    else if decide ((pyWords query).length ≤ 2) && simple_responses.contains query then
      (st, { intent := "acknowledgment", urgency := "low", needs_details := false,
             greeting_type := none, topic_details := topic_details,
             language := current_language })
    -- 10. personal questions
    else if anyIn about_you_words query then
      (st, { intent := "about_me", urgency := "low", needs_details := false,
             greeting_type := none, topic_details := topic_details,
             language := current_language })
    -- default: consultation
    else
      (st, { intent := "consultation",
             urgency := if is_problem then "high" else "medium",
             needs_details := topic_details.needs_clarification,
             greeting_type := none, topic_details := topic_details,
             language := current_language })

/-! ## State update (`LLMBridge._update_conversation_state`) -/

/-- Scanner behind `re.findall(r'[^|!?.]+\?', response)`: the pattern's
character class cannot backtrack, so a match is exactly a maximal nonempty
run of non-`|!?.` characters followed immediately by `?`, and the scan
resumes after the consumed `?`.  `acc` holds the current run reversed. -/
def findQAux : List Char → List Char → List String
  | _, [] => []
  | acc, c :: cs =>
    if c = '?' then
      if acc.isEmpty then findQAux [] cs
      else String.mk (acc.reverse ++ ['?']) :: findQAux [] cs
    else if c = '|' ∨ c = '!' ∨ c = '.' then findQAux [] cs
    else findQAux (c :: acc) cs

/-- `re.findall(r'[^|!?.]+\?', s)`. -/
def extract_questions (s : String) : List String := findQAux [] s.toList

/-- Python `'?' in response`. -/
def containsQMark (s : String) : Bool := s.toList.contains '?'

/-- Stage 1 of `_update_conversation_state`: adopt a non-general new topic
and append it to `previous_topics` when absent. -/
def upd_topic (st : ConvState) (td : TopicDetails) : ConvState :=
  if td.is_new_topic && td.topic ≠ some "general" then
    let st2 : ConvState := { st with current_topic := td.topic }
    if td.topic ∉ st2.previous_topics then
      { st2 with previous_topics := st2.previous_topics ++ [td.topic] }
    else st2
  else st

/-- Stage 2: overwrite `topic_context` with this turn's subtopic and tone. -/
def upd_ctx (st : ConvState) (td : TopicDetails) : ConvState :=
  { st with topic_context := ⟨td.subtopic, some td.emotional_tone⟩ }

/-- Stage 3: `self.conversation_state["language_preference"] =
intent_analysis["language"]` (every intent record carries `language`). -/
def upd_lang (st : ConvState) (ia : IntentAnalysis) : ConvState :=
  { st with language_preference := ia.language }

/-- Stage 4: the question scan of the assistant reply. -/
def upd_question_scan (st : ConvState) (assistant_response : String) : ConvState :=
  if containsQMark assistant_response then
    let st2 : ConvState := { st with has_asked_questions := true, waiting_for_answer := true }
    match (extract_questions assistant_response).getLast? with
    | some q => { st2 with last_question_asked := some (pyStrip q) }
    | none => st2
  else { st with waiting_for_answer := false, last_question_asked := none }

/-- Stage 5: on `answer_received`, stop waiting and record the utterance
under a per-topic key. -/
def upd_answer (st : ConvState) (user_query : String) (ia : IntentAnalysis) : ConvState :=
  if ia.intent = "answer_received" then
    let st2 : ConvState := { st with waiting_for_answer := false, last_question_asked := none }
    if isTruthyOpt st2.current_topic then
      let detail_key := st2.current_topic.getD "" ++ "_answer"
      { st2 with user_details := insertUD st2.user_details detail_key (UDetail.str user_query) }
    else st2
  else st

/-- Stage 6: mark the current topic's details flag on long non-greeting,
non-gratitude utterances. -/
def upd_details (st : ConvState) (user_query : String) (ia : IntentAnalysis) : ConvState :=
  if decide ((pyWords user_query).length > 3)
     && !(ia.intent = "greeting" || ia.intent = "gratitude") then
    if isTruthyOpt st.current_topic then
      let topic_key := st.current_topic.getD ""
      { st with user_details := insertUD st.user_details topic_key (UDetail.flag true) }
    else st
  else st

/-- Stage 7: the new-topic reset / stage transition closing the update. -/
def upd_reset (st : ConvState) (td : TopicDetails) : ConvState :=
  if td.is_new_topic then
    { st with has_asked_questions := false, conversation_stage := "initial",
              waiting_for_answer := false, last_question_asked := none }
  else { st with conversation_stage := "detailed" }

/-- `LLMBridge._update_conversation_state`, with the source's mutation
order preserved: topic update, topic context, language, question scan,
answer handling, detail recording, then the new-topic reset. -/
def update_conversation_state (st : ConvState) (user_query : String)
    (ia : IntentAnalysis) (assistant_response : String) : ConvState :=
  upd_reset
    (upd_details
      (upd_answer
        (upd_question_scan
          (upd_lang (upd_ctx (upd_topic st ia.topic_details) ia.topic_details) ia)
          assistant_response)
        user_query ia)
      user_query ia)
    ia.topic_details

/-- One state-changing operation on the session: a post-reply update or an
explicit reset. -/
inductive TurnStep
  | update (user_query : String) (ia : IntentAnalysis) (assistant_response : String)
  | reset

def apply_turn_step (st : ConvState) : TurnStep → ConvState
  | .update q ia resp => update_conversation_state st q ia resp
  | .reset => reset_conversation

/-- Run a sequence of updates/resets from a starting state. -/
def run_turn_steps (st : ConvState) (l : List TurnStep) : ConvState :=
  l.foldl apply_turn_step st

/-! ## Response formatter (`LLMBridge._clean_chat_response`) -/

/-- Leftmost-match split on the `|||` separator (Python
`response.split('|||')`), keeping empty pieces. -/
def splitBars : List Char → List Char → List String
  | acc, '|' :: '|' :: '|' :: cs => String.mk acc.reverse :: splitBars [] cs
  | acc, c :: cs => splitBars (c :: acc) cs
  | acc, [] => [String.mk acc.reverse]

/-- Per-segment cleanup: strip, then drop one trailing period unless the
segment ends in `?`, `!`, `...` or `..`. -/
def strip_trailing_period (m : String) : String :=
  if !strEndsWith m "?" && !strEndsWith m "!" then
    if strEndsWith m "..." then m
    else if strEndsWith m ".." then m
    else if strEndsWith m "." then String.mk m.toList.dropLast
    else m
  else m

/-- The `cleaned_messages` list of `_clean_chat_response`: split on `|||`,
strip, drop empties, strip one trailing period. -/
def cleaned_messages (response : String) : List String :=
  (splitBars [] response.toList).filterMap (fun m =>
    let m := pyStrip m
    if m = "" then none else some (strip_trailing_period m))

/-- The per-intent segment cap of `_clean_chat_response`. -/
def capped_messages (cleaned : List String) (intent : String) : List String :=
  if intent = "greeting" then cleaned.take 2
  else if intent = "gratitude" then cleaned.take 1
  else if intent = "acknowledgment" then cleaned.take 2
  else if intent = "consultation" ∨ intent = "answer_received"
       ∨ intent = "remedy_request" then
    if cleaned.length = 1 ∧ (pyWords (cleaned.headD "")).length < 15 then cleaned
    else cleaned.take 3
  else cleaned.take 3

/-- `LLMBridge._clean_chat_response`. -/
def clean_chat_response (response : String) (intent : String) : String :=
  if response = "" then response
  else joinSep "|||" (capped_messages (cleaned_messages response) intent)

/-! ## Cached context builder (`CachedContextBuilder`, cached_context.py) -/

/-- A message dict `{"role": ..., "content": ...}` sent to the backend. -/
structure Msg where
  role : String
  content : String
deriving DecidableEq

/-- A user-fact row as returned by the facts collaborator
(`db.get_user_facts`); the float `importance_score` is idealised as a
rational. -/
structure Fact where
  category : String
  fact_text : String
  importance_score : ℚ
deriving DecidableEq

/-- Fact categories in order of first appearance (Python dict insertion
order in `_format_user_facts`). -/
def factCategories (facts : List Fact) : List String :=
  facts.foldl (fun acc f => if f.category ∈ acc then acc else acc ++ [f.category]) []

/-- `"⭐" * int(importance * 5) if importance > 0.5 else ""`. -/
def factStars (importance : ℚ) : String :=
  if importance > 1/2 then
    String.join (List.replicate (Int.toNat ⌊importance * 5⌋) "⭐")
  else ""

/-- One formatted fact line (`"  • " + text + optional stars`). -/
def factLine (f : Fact) : String :=
  let stars := factStars f.importance_score
  "  • " ++ f.fact_text ++ (if stars ≠ "" then " " ++ stars else "")

/-- `CachedContextBuilder._format_user_facts`. -/
def format_user_facts (facts : List Fact) : String :=
  if facts = [] then ""
  else
    joinSep "\n" ((factCategories facts).flatMap (fun cat =>
      ("\n" ++ upper cat ++ ":") ::
        (facts.filter (fun f => f.category = cat)).map factLine))

/-- Inputs of `CachedContextBuilder.build_messages`.  The facts and recent
messages stand for the values the db collaborator returned
(`_get_user_facts` / `_get_recent_messages`), and `character_prompt` for
`get_character_prompt(character_id)`. -/
structure BuildArgs where
  current_query : String
  natal_context : String
  transit_context : String
  system_prompt : Option String
  character_prompt : String
  user_facts : List Fact
  recent_messages : List Msg
deriving DecidableEq

/-- `if not system_prompt: system_prompt = get_character_prompt(...)`. -/
def resolved_system_prompt (a : BuildArgs) : String :=
  match a.system_prompt with
  | some s => if s = "" then a.character_prompt else s
  | none => a.character_prompt

/-- The birth-chart block content (step 2 of `build_messages`). -/
def chart_content (a : BuildArgs) : String :=
  "=== BIRTH CHART ===\n" ++ a.natal_context ++
    (if a.transit_context ≠ "" then
      "\n\n=== CURRENT TRANSITS ===\n" ++ a.transit_context
    else "")

/-- The user-facts block (step 3), appended only when facts exist. -/
def facts_block (a : BuildArgs) : List Msg :=
  if a.user_facts ≠ [] then
    [⟨"system", "=== KNOWN FACTS ABOUT USER (Long-term Memory) ===\n" ++
        format_user_facts a.user_facts⟩]
  else []

/-- The system reminder of step 4.5 of `build_messages`. -/
def reminder_text : String :=
  "REMINDER: Always base your guidance on the BIRTH CHART and CURRENT TRANSITS data provided above. Use astrological timing and phases in your response."

/-- The reminder block, added once the recent window exceeds 6 messages. -/
def reminder_block (a : BuildArgs) : List Msg :=
  if a.recent_messages.length > 6 then [⟨"system", reminder_text⟩] else []

/-- `CachedContextBuilder.build_messages`: the sequence of appends of the
source (system prompt, chart, optional facts, recent window, optional
reminder, current query). -/
def build_messages (a : BuildArgs) : List Msg :=
  [⟨"system", resolved_system_prompt a⟩, ⟨"system", chart_content a⟩]
    ++ facts_block a
    ++ a.recent_messages
    ++ reminder_block a
    ++ [⟨"user", a.current_query⟩]

/-- Stability tiers of the spec's ContextBlock model. -/
inductive Stability
  | stat
  | semiStatic
  | dyn
deriving DecidableEq

/-- Order of stability tiers: static < semi-static < dynamic. -/
def Stability.rank : Stability → Nat
  | .stat => 0
  | .semiStatic => 1
  | .dyn => 2

/-- The stability tier of each block of `build_messages`, position by
position, per the spec's classification: prompt and chart static, facts
semi-static, recent window, reminder and current query dynamic. -/
def message_tiers (a : BuildArgs) : List Stability :=
  [Stability.stat, Stability.stat]
    ++ (if a.user_facts ≠ [] then [Stability.semiStatic] else [])
    ++ a.recent_messages.map (fun _ => Stability.dyn)
    ++ (if a.recent_messages.length > 6 then [Stability.dyn] else [])
    ++ [Stability.dyn]

/-! ## Failure model and backend call structure (generate_response) -/

/-- A raised Python exception (only the type/message is relevant). -/
inductive PyError
  | typeError (msg : String)
  | apiError (msg : String)
deriving DecidableEq

/-- The keyword parameters accepted by
`CachedContextBuilder.build_messages` (it declares no `**kwargs`). -/
def build_messages_param_names : List String :=
  ["user_id", "current_query", "natal_context", "transit_context",
   "system_prompt", "session_id", "character_id"]

/-- The keyword arguments `LLMBridge._generate_with_caching` passes to
`self.context_builder.build_messages` (lines 247–256). -/
def generate_with_caching_call_kwargs : List String :=
  ["user_id", "current_query", "natal_context", "transit_context",
   "session_id", "system_prompt", "character_id", "conversation_history"]

/-- Python keyword binding for a call to `build_messages`: any keyword
argument that matches no declared parameter raises `TypeError` before the
function body runs. -/
def call_build_messages (kwargs : List String) (a : BuildArgs) :
    Except PyError (List Msg) :=
  match kwargs.find? (fun k => !build_messages_param_names.contains k) with
  | some k =>
    Except.error (PyError.typeError
      ("build_messages() got an unexpected keyword argument " ++ k))
  | none => Except.ok (build_messages a)

/-- The `cache_stats` dict (`CachedContextBuilder.get_cache_stats`);
rates and costs are idealised as rationals. -/
structure CacheStats where
  total_input_tokens : Nat
  cached_tokens : Nat
  cache_hit_rate : ℚ
  cost_saved_usd : ℚ
deriving DecidableEq

/-- The all-zero stats dict returned on the intercepted path of
`generate_response`. -/
def zero_cache_stats : CacheStats :=
  { total_input_tokens := 0, cached_tokens := 0,
    cache_hit_rate := 0, cost_saved_usd := 0 }

/-- The dict `generate_response` returns. -/
structure GenResult where
  response : String
  cache_stats : CacheStats
  intercepted : Bool
deriving DecidableEq

deriving instance DecidableEq for Except

/-- Observable outcome of one `generate_response` call: the returned dict
or raised exception, whether the generation backend (chat completion) was
invoked, and the conversation state after the call. -/
structure Outcome where
  result : Except PyError GenResult
  backend_called : Bool
  final_state : ConvState
deriving DecidableEq

/-- `IdentityGuard.get_character_response`: the canned persona reply,
keyed by language with a Hinglish fallback.  `char_name`/`char_desc` stand
for the looked-up character's name and description. -/
def get_character_response (language char_name char_desc : String) : String :=
  let language := lower language
  if language = "english" then
    "I am " ++ char_name ++ ", your " ++ char_desc ++
      " guide. I help you understand cosmic influences on your life."
  else if language = "hinglish" then
    "Main " ++ char_name ++ " hoon, aapka " ++ char_desc ++
      " guide. Main aapko cosmos ki shaktiyon ke baare mein batata hoon."
  else if language = "telugu" then
    "Nenu " ++ char_name ++ ", meeku " ++ char_desc ++ " margadarshakam."
  else if language = "tamil" then
    "Naan " ++ char_name ++ ", ungal " ++ char_desc ++ " vettiyaalar."
  else if language = "hindi" then
    "मैं " ++ char_name ++ " हूँ, आपका " ++ char_desc ++ " मार्गदर्शक।"
  else if language = "kannada" then
    "Naanu " ++ char_name ++ ", nimage " ++ char_desc ++ " margadarshaka."
  else if language = "malayalam" then
    "Njaan " ++ char_name ++ ", ningalude " ++ char_desc ++ " margadarshakan."
  else
    "Main " ++ char_name ++ " hoon, aapka " ++ char_desc ++
      " guide. Main aapko cosmos ki shaktiyon ke baare mein batata hoon."

/-- `IdentityGuard.intercept_if_needed`.  Whether the query is an identity
query is decided by an embedding-similarity call to an external service;
that verdict enters here as the boolean `is_identity`. -/
def intercept_if_needed (is_identity : Bool) (language char_name char_desc : String) :
    Option String :=
  if is_identity then some (get_character_response language char_name char_desc)
  else none

/-- `LLMBridge._generate_with_caching`: builds the messages (the call
carries the kwargs above), then calls the chat backend; any exception is
logged and re-raised.  The backend is the external completion service,
given as an oracle from the built messages to its reply and usage. -/
def generate_with_caching (st : ConvState) (a : BuildArgs)
    (backend : List Msg → Except PyError (String × CacheStats)) : Outcome :=
  match call_build_messages generate_with_caching_call_kwargs a with
  | Except.error e => ⟨Except.error e, false, st⟩
  | Except.ok msgs =>
    match backend msgs with
    | Except.error e => ⟨Except.error e, true, st⟩
    | Except.ok (text, stats) =>
      ⟨Except.ok ⟨clean_chat_response (pyStrip text) "consultation", stats, false⟩,
        true, st⟩

/-- `LLMBridge.generate_response` (lines 155–230): identity-guard
interception, then the cached path when caching is enabled and a user id
is present.  The non-caching `_generate_original` path is irrelevant to
every claim settled on this function and is supplied as an opaque outcome
parameter. -/
def generate_response (st : ConvState) (use_caching guard_active is_identity : Bool)
    (char_name char_desc : String) (user_id : Option Nat) (user_query : String)
    (a : BuildArgs) (backend : List Msg → Except PyError (String × CacheStats))
    (original_outcome : Outcome) : Outcome :=
  let intercepted :=
    if guard_active && user_query ≠ "" then
      intercept_if_needed is_identity st.language_preference char_name char_desc
    else none
  match intercepted with
  | some r => ⟨Except.ok ⟨r, zero_cache_stats, true⟩, false, st⟩
  | none =>
    if use_caching && user_id.isSome then generate_with_caching st a backend
    else original_outcome

/-- Python object references relevant to the builder's constructor. -/
inductive PyRef
  | bridge_client
  | fresh_client
deriving DecidableEq

/-- The two attributes `CachedContextBuilder.__init__` stores. -/
structure CachedContextBuilderRefs where
  db : PyRef
  client : PyRef
deriving DecidableEq

/-- `CachedContextBuilder.__init__(self, db, openai_client=None)`:
`self.db = db; self.client = openai_client or OpenAI(...)`. -/
def mk_cached_context_builder (db : PyRef) (openai_client : Option PyRef) :
    CachedContextBuilderRefs :=
  { db := db, client := openai_client.getD PyRef.fresh_client }

/-- `LLMBridge.__init__` line 125: `CachedContextBuilder(self.client)` —
the bridge's OpenAI client is passed positionally, binding to `db`. -/
def llm_bridge_context_builder : CachedContextBuilderRefs :=
  mk_cached_context_builder PyRef.bridge_client none


/-! ## Theorems -/

/-- All-`dyn` lists are pairwise non-decreasing in rank. -/
lemma pairwise_rank_of_all_dyn (l : List Stability)
    (h : ∀ x ∈ l, x = Stability.dyn) :
    l.Pairwise (fun t u => t.rank ≤ u.rank) := by
  induction l with
  | nil => exact List.Pairwise.nil
  | cons a t ih =>
    refine List.Pairwise.cons (fun y hy => ?_) (ih fun x hx => h x (List.mem_cons_of_mem a hx))
    rw [h a (List.mem_cons_self a t), h y (List.mem_cons_of_mem a hy)]

/-- Every element of the dynamic tail of `message_tiers` is `dyn`. -/
lemma mem_tiers_tail_eq_dyn (a : BuildArgs) (x : Stability)
    (hx : x ∈ a.recent_messages.map (fun _ => Stability.dyn)
        ++ ((if a.recent_messages.length > 6 then [Stability.dyn] else [])
            ++ [Stability.dyn])) :
    x = Stability.dyn := by
  rcases List.mem_append.mp hx with h | h
  · rcases List.mem_map.mp h with ⟨_, _, h2⟩
    exact h2.symm
  · rcases List.mem_append.mp h with h | h
    · split at h
      · simpa using h
      · simp at h
    · simpa using h

/-- C1: `CachedContextBuilder.build_messages` returns the blocks in
non-decreasing stability order — system prompt first, then the birth-chart
block (both static), then the semi-static user-facts block exactly when
facts exist, then the dynamic recent-conversation window and optional
reminder, with the current user utterance as the final element. -/
theorem c1_build_messages_stability_order (a : BuildArgs) :
    (message_tiers a).Pairwise (fun t u => t.rank ≤ u.rank)
  ∧ (message_tiers a).length = (build_messages a).length
  ∧ (build_messages a).take 2 =
      [⟨"system", resolved_system_prompt a⟩, ⟨"system", chart_content a⟩]
  ∧ (message_tiers a).take 2 = [Stability.stat, Stability.stat]
  ∧ (facts_block a).length = (if a.user_facts ≠ [] then 1 else 0)
  ∧ (message_tiers a).get? 2 =
      some (if a.user_facts ≠ [] then Stability.semiStatic else Stability.dyn)
  ∧ build_messages a =
      [⟨"system", resolved_system_prompt a⟩, ⟨"system", chart_content a⟩]
        ++ facts_block a ++ a.recent_messages ++ reminder_block a
        ++ [⟨"user", a.current_query⟩]
  ∧ (build_messages a).getLast? = some ⟨"user", a.current_query⟩
  ∧ (message_tiers a).getLast? = some Stability.dyn := by
  refine ⟨?_, ?_, ?_, ?_, ?_, ?_, rfl, ?_, ?_⟩
  · -- pairwise stability order
    have hsplit : message_tiers a =
        ([Stability.stat, Stability.stat]
          ++ (if a.user_facts ≠ [] then [Stability.semiStatic] else []))
        ++ (a.recent_messages.map (fun _ => Stability.dyn)
          ++ ((if a.recent_messages.length > 6 then [Stability.dyn] else [])
            ++ [Stability.dyn])) := by
      simp [message_tiers, List.append_assoc]
    rw [hsplit, List.pairwise_append]
    refine ⟨?_, ?_, ?_⟩
    · by_cases h : a.user_facts = [] <;> first
        | (simp [h]; decide)
        | simp [h]
    · exact pairwise_rank_of_all_dyn _ (mem_tiers_tail_eq_dyn a)
    · intro x hx y hy
      rw [mem_tiers_tail_eq_dyn a y hy]
      have : x = Stability.stat ∨ x = Stability.semiStatic := by
        rcases List.mem_append.mp hx with h | h
        · simp at h
          exact Or.inl h
        · split at h
          · simp at h; exact Or.inr h
          · simp at h
      rcases this with h | h <;> rw [h] <;> decide
  · by_cases h1 : a.user_facts = [] <;>
      by_cases h2 : a.recent_messages.length > 6 <;>
        simp [message_tiers, build_messages, facts_block, reminder_block, h1, h2]
  · by_cases h1 : a.user_facts = [] <;> simp [build_messages, facts_block, h1]
  · by_cases h1 : a.user_facts = [] <;> simp [message_tiers, h1]
  · by_cases h1 : a.user_facts = [] <;> simp [facts_block, h1]
  · by_cases h1 : a.user_facts = [] <;>
      rcases hrec : a.recent_messages with _ | ⟨m, ms⟩ <;>
        simp [message_tiers, h1, hrec]
  · have : build_messages a =
        ([⟨"system", resolved_system_prompt a⟩, ⟨"system", chart_content a⟩]
          ++ facts_block a ++ a.recent_messages ++ reminder_block a)
        ++ [(⟨"user", a.current_query⟩ : Msg)] := by
      simp [build_messages, List.append_assoc]
    rw [this, List.getLast?_concat]
  · have : message_tiers a =
        ([Stability.stat, Stability.stat]
          ++ (if a.user_facts ≠ [] then [Stability.semiStatic] else [])
          ++ a.recent_messages.map (fun _ => Stability.dyn)
          ++ (if a.recent_messages.length > 6 then [Stability.dyn] else []))
        ++ [Stability.dyn] := by
      simp [message_tiers, List.append_assoc]
    rw [this, List.getLast?_concat]

/-- C2: with caching enabled, a non-null user id and a query the identity
guard does not intercept, `generate_response` raises instead of replying:
`_generate_with_caching` passes the keyword argument `conversation_history`,
which `CachedContextBuilder.build_messages` does not accept, so the call
fails with a `TypeError` before any backend call; and the bridge
constructed its builder with the OpenAI client bound to the `db`
parameter. -/
theorem c2_caching_path_raises (st : ConvState) (guard_active : Bool)
    (char_name char_desc : String) (uid : Nat) (user_query : String)
    (a : BuildArgs) (backend : List Msg → Except PyError (String × CacheStats))
    (orig : Outcome) :
    build_messages_param_names.contains "conversation_history" = false
  ∧ generate_response st true guard_active false char_name char_desc (some uid)
      user_query a backend orig =
      { result := Except.error (PyError.typeError
          "build_messages() got an unexpected keyword argument conversation_history"),
        backend_called := false, final_state := st }
  ∧ llm_bridge_context_builder.db = PyRef.bridge_client := by
  refine ⟨by decide, ?_, rfl⟩
  have hint : (if guard_active && decide (user_query ≠ "") then
      intercept_if_needed false st.language_preference char_name char_desc
    else none) = none := by
    simp [intercept_if_needed]
  simp only [generate_response, hint]
  rfl

/-- `apply_language_vote` changes at most `language_preference`. -/
lemma apply_language_vote_fields (st : ConvState) (hist : List HMsg) :
    (apply_language_vote st hist).current_topic = st.current_topic
  ∧ (apply_language_vote st hist).waiting_for_answer = st.waiting_for_answer
  ∧ (apply_language_vote st hist).last_question_asked = st.last_question_asked
  ∧ (apply_language_vote st hist).topic_context = st.topic_context
  ∧ (apply_language_vote st hist).has_asked_questions = st.has_asked_questions := by
  refine ⟨?_, ?_, ?_, ?_, ?_⟩ <;>
    · simp only [apply_language_vote]
      split_ifs <;> rfl

lemma upd_topic_waiting (st : ConvState) (td : TopicDetails) :
    (upd_topic st td).waiting_for_answer = st.waiting_for_answer := by
  simp only [upd_topic]; split_ifs <;> rfl

lemma upd_topic_hasasked (st : ConvState) (td : TopicDetails) :
    (upd_topic st td).has_asked_questions = st.has_asked_questions := by
  simp only [upd_topic]; split_ifs <;> rfl

lemma upd_topic_lastq (st : ConvState) (td : TopicDetails) :
    (upd_topic st td).last_question_asked = st.last_question_asked := by
  simp only [upd_topic]; split_ifs <;> rfl

lemma upd_topic_lang (st : ConvState) (td : TopicDetails) :
    (upd_topic st td).language_preference = st.language_preference := by
  simp only [upd_topic]; split_ifs <;> rfl

lemma upd_ctx_hasasked (st : ConvState) (td : TopicDetails) :
    (upd_ctx st td).has_asked_questions = st.has_asked_questions := rfl

lemma upd_ctx_lastq (st : ConvState) (td : TopicDetails) :
    (upd_ctx st td).last_question_asked = st.last_question_asked := rfl

lemma upd_lang_hasasked (st : ConvState) (ia : IntentAnalysis) :
    (upd_lang st ia).has_asked_questions = st.has_asked_questions := rfl

lemma upd_lang_lastq (st : ConvState) (ia : IntentAnalysis) :
    (upd_lang st ia).last_question_asked = st.last_question_asked := rfl

lemma upd_scan_waiting (st : ConvState) (resp : String) :
    (upd_question_scan st resp).waiting_for_answer = containsQMark resp := by
  simp only [upd_question_scan]
  split_ifs with h
  · cases (extract_questions resp).getLast? <;> simp [h]
  · simp [h]

lemma upd_scan_hasasked (st : ConvState) (resp : String) :
    (upd_question_scan st resp).has_asked_questions =
      (containsQMark resp || st.has_asked_questions) := by
  simp only [upd_question_scan]
  split_ifs with h
  · cases (extract_questions resp).getLast? <;> simp [h]
  · simp [h]

lemma upd_scan_lastq (st : ConvState) (resp : String) :
    (upd_question_scan st resp).last_question_asked =
      (if containsQMark resp then
        match (extract_questions resp).getLast? with
        | some q0 => some (pyStrip q0)
        | none => st.last_question_asked
       else none) := by
  simp only [upd_question_scan]
  split_ifs with h
  · cases (extract_questions resp).getLast? <;> simp
  · simp

lemma upd_scan_lang (st : ConvState) (resp : String) :
    (upd_question_scan st resp).language_preference = st.language_preference := by
  simp only [upd_question_scan]
  split_ifs with h
  · cases (extract_questions resp).getLast? <;> rfl
  · rfl

lemma upd_answer_waiting (st : ConvState) (q : String) (ia : IntentAnalysis) :
    (upd_answer st q ia).waiting_for_answer =
      (if ia.intent = "answer_received" then false else st.waiting_for_answer) := by
  simp only [upd_answer]; split_ifs <;> rfl

lemma upd_answer_hasasked (st : ConvState) (q : String) (ia : IntentAnalysis) :
    (upd_answer st q ia).has_asked_questions = st.has_asked_questions := by
  simp only [upd_answer]; split_ifs <;> rfl

lemma upd_answer_lastq (st : ConvState) (q : String) (ia : IntentAnalysis) :
    (upd_answer st q ia).last_question_asked =
      (if ia.intent = "answer_received" then none else st.last_question_asked) := by
  simp only [upd_answer]; split_ifs <;> rfl

lemma upd_answer_lang (st : ConvState) (q : String) (ia : IntentAnalysis) :
    (upd_answer st q ia).language_preference = st.language_preference := by
  simp only [upd_answer]; split_ifs <;> rfl

lemma upd_details_waiting (st : ConvState) (q : String) (ia : IntentAnalysis) :
    (upd_details st q ia).waiting_for_answer = st.waiting_for_answer := by
  simp only [upd_details]; split_ifs <;> rfl

lemma upd_details_hasasked (st : ConvState) (q : String) (ia : IntentAnalysis) :
    (upd_details st q ia).has_asked_questions = st.has_asked_questions := by
  simp only [upd_details]; split_ifs <;> rfl

lemma upd_details_lastq (st : ConvState) (q : String) (ia : IntentAnalysis) :
    (upd_details st q ia).last_question_asked = st.last_question_asked := by
  simp only [upd_details]; split_ifs <;> rfl

lemma upd_details_lang (st : ConvState) (q : String) (ia : IntentAnalysis) :
    (upd_details st q ia).language_preference = st.language_preference := by
  simp only [upd_details]; split_ifs <;> rfl

lemma upd_reset_waiting (st : ConvState) (td : TopicDetails) :
    (upd_reset st td).waiting_for_answer =
      (if td.is_new_topic then false else st.waiting_for_answer) := by
  simp only [upd_reset]; split_ifs <;> rfl

lemma upd_reset_hasasked (st : ConvState) (td : TopicDetails) :
    (upd_reset st td).has_asked_questions =
      (if td.is_new_topic then false else st.has_asked_questions) := by
  simp only [upd_reset]; split_ifs <;> rfl

lemma upd_reset_lastq (st : ConvState) (td : TopicDetails) :
    (upd_reset st td).last_question_asked =
      (if td.is_new_topic then none else st.last_question_asked) := by
  simp only [upd_reset]; split_ifs <;> rfl

lemma upd_reset_lang (st : ConvState) (td : TopicDetails) :
    (upd_reset st td).language_preference = st.language_preference := by
  simp only [upd_reset]; split_ifs <;> rfl

/-- The final `waiting_for_answer` of `_update_conversation_state`: set by
the question scan, cleared by the answer branch, cleared again by the
new-topic reset. -/
lemma update_waiting_eq (st : ConvState) (q : String) (ia : IntentAnalysis)
    (resp : String) :
    (update_conversation_state st q ia resp).waiting_for_answer =
      (!ia.topic_details.is_new_topic
        && (!decide (ia.intent = "answer_received") && containsQMark resp)) := by
  unfold update_conversation_state
  rw [upd_reset_waiting, upd_details_waiting, upd_answer_waiting, upd_scan_waiting]
  by_cases h1 : ia.topic_details.is_new_topic <;>
    by_cases h2 : ia.intent = "answer_received" <;> simp [h1, h2]

/-- The final `has_asked_questions` of `_update_conversation_state`. -/
lemma update_hasasked_eq (st : ConvState) (q : String) (ia : IntentAnalysis)
    (resp : String) :
    (update_conversation_state st q ia resp).has_asked_questions =
      (!ia.topic_details.is_new_topic
        && (containsQMark resp || st.has_asked_questions)) := by
  unfold update_conversation_state
  rw [upd_reset_hasasked, upd_details_hasasked, upd_answer_hasasked, upd_scan_hasasked,
    upd_lang_hasasked, upd_ctx_hasasked, upd_topic_hasasked]
  by_cases h1 : ia.topic_details.is_new_topic <;> simp [h1]

/-- The final `last_question_asked` of `_update_conversation_state`. -/
lemma update_lastq_eq (st : ConvState) (q : String) (ia : IntentAnalysis)
    (resp : String) :
    (update_conversation_state st q ia resp).last_question_asked =
      (if ia.topic_details.is_new_topic then none
       else if ia.intent = "answer_received" then none
       else if containsQMark resp then
         match (extract_questions resp).getLast? with
         | some q0 => some (pyStrip q0)
         | none => st.last_question_asked
       else none) := by
  unfold update_conversation_state
  rw [upd_reset_lastq, upd_details_lastq, upd_answer_lastq, upd_scan_lastq,
    upd_lang_lastq, upd_ctx_lastq, upd_topic_lastq]

/-- The final `language_preference` of `_update_conversation_state`: the
intent record's per-turn detected language always overwrites it. -/
lemma update_lang_eq (st : ConvState) (q : String) (ia : IntentAnalysis)
    (resp : String) :
    (update_conversation_state st q ia resp).language_preference = ia.language := by
  unfold update_conversation_state
  rw [upd_reset_lang, upd_details_lang, upd_answer_lang, upd_scan_lang]
  rfl

lemma run_turn_steps_cons (st : ConvState) (s : TurnStep) (t : List TurnStep) :
    run_turn_steps st (s :: t) = run_turn_steps (apply_turn_step st s) t := rfl

/-- A nonempty run ends with some step applied to some state. -/
lemma run_turn_steps_last_step (st : ConvState) (l : List TurnStep) :
    (l = [] ∧ run_turn_steps st l = st)
  ∨ ∃ st2 s, run_turn_steps st l = apply_turn_step st2 s := by
  induction l generalizing st with
  | nil => exact Or.inl ⟨rfl, rfl⟩
  | cons s t ih =>
    rcases ih (apply_turn_step st s) with ⟨ht, hr⟩ | ⟨st2, s2, hr⟩
    · refine Or.inr ⟨st, s, ?_⟩
      rw [run_turn_steps_cons, ht]
      rfl
    · exact Or.inr ⟨st2, s2, by rw [run_turn_steps_cons]; exact hr⟩

/-- After any single step, waiting implies asked. -/
lemma apply_step_inv (st : ConvState) (s : TurnStep)
    (hw : (apply_turn_step st s).waiting_for_answer = true) :
    (apply_turn_step st s).has_asked_questions = true := by
  cases s with
  | reset => simp [apply_turn_step, reset_conversation, init_conversation_state] at hw
  | update q ia resp =>
    have h1 := update_waiting_eq st q ia resp
    have h2 := update_hasasked_eq st q ia resp
    simp only [apply_turn_step] at hw ⊢
    rw [h1] at hw
    rw [h2]
    rcases Bool.and_eq_true_iff.mp hw with ⟨hn, hq⟩
    rcases Bool.and_eq_true_iff.mp hq with ⟨_, hc⟩
    rw [Bool.not_eq_true'] at hn
    simp [hn, hc]

/-- C3: in every conversation state reachable from the initial state by
state updates and resets, `waiting_for_answer` implies
`has_asked_questions`. -/
theorem c3_waiting_implies_asked (l : List TurnStep)
    (h : (run_turn_steps init_conversation_state l).waiting_for_answer = true) :
    (run_turn_steps init_conversation_state l).has_asked_questions = true := by
  rcases run_turn_steps_last_step init_conversation_state l with ⟨_, hr⟩ | ⟨st2, s, hr⟩
  · rw [hr] at h
    exact absurd h (by decide)
  · rw [hr] at h ⊢
    exact apply_step_inv st2 s h

/-- A concrete same-topic follow-up turn whose reply asks a question. -/
def followup_career_intent : IntentAnalysis :=
  { intent := "consultation", urgency := "high", needs_details := true,
    greeting_type := none,
    topic_details := { topic := some "career", subtopic := none,
                       is_new_topic := false, needs_clarification := true,
                       emotional_tone := "stressed" },
    language := "hinglish" }

theorem c3_waiting_implies_asked_witness :
    (run_turn_steps init_conversation_state
      [TurnStep.update "meri job ki problem hai" followup_career_intent
        "Kis field mein kaam karte ho?"]).waiting_for_answer = true
  ∧ (run_turn_steps init_conversation_state
      [TurnStep.update "meri job ki problem hai" followup_career_intent
        "Kis field mein kaam karte ho?"]).has_asked_questions = true :=
  ⟨by decide, c3_waiting_implies_asked _ (by decide)⟩

/-- An intent whose `is_new_topic` flag is set, as the default topic-tagging
path produces for a fresh topic. -/
def c4_new_topic_intent : IntentAnalysis :=
  { intent := "consultation", urgency := "high", needs_details := true,
    greeting_type := none,
    topic_details := { topic := some "career", subtopic := some "job_search",
                       is_new_topic := true, needs_clarification := true,
                       emotional_tone := "stressed" },
    language := "hinglish" }

/-- C4 counterexample: on a new-topic turn whose reply contains `?`, the
post-state has `waiting_for_answer = false` — the end-of-update new-topic
reset overrides the question scan, contradicting the claim that the scan's
outcome holds for every intent including `isNewTopic = true`. -/
theorem c4_counterexample :
    containsQMark "Kis field mein kaam karte ho?" = true
  ∧ c4_new_topic_intent.topic_details.is_new_topic = true
  ∧ (update_conversation_state init_conversation_state "meri job ki problem hai"
      c4_new_topic_intent "Kis field mein kaam karte ho?").waiting_for_answer = false
  ∧ (update_conversation_state init_conversation_state "meri job ki problem hai"
      c4_new_topic_intent "Kis field mein kaam karte ho?").has_asked_questions = false := by
  decide

/-- C4 (amended): the question-scan behaviour holds only on turns with
`isNewTopic = false` and intent ≠ `answerReceived`: then a reply containing
`?` sets both flags and stores the last extracted interrogative clause
(retaining the previous one if the regex extracts none), while a reply
without `?` clears `waiting_for_answer` and `last_question_asked` and
leaves `has_asked_questions` unchanged. -/
theorem c4_amended_question_scan (st : ConvState) (q : String)
    (ia : IntentAnalysis) (resp : String)
    (hnew : ia.topic_details.is_new_topic = false)
    (hans : ia.intent ≠ "answer_received") :
    (containsQMark resp = true →
        (update_conversation_state st q ia resp).has_asked_questions = true
      ∧ (update_conversation_state st q ia resp).waiting_for_answer = true
      ∧ (update_conversation_state st q ia resp).last_question_asked =
          (match (extract_questions resp).getLast? with
           | some q0 => some (pyStrip q0)
           | none => st.last_question_asked))
  ∧ (containsQMark resp = false →
        (update_conversation_state st q ia resp).waiting_for_answer = false
      ∧ (update_conversation_state st q ia resp).last_question_asked = none
      ∧ (update_conversation_state st q ia resp).has_asked_questions
          = st.has_asked_questions) := by
  have h1 := update_waiting_eq st q ia resp
  have h2 := update_hasasked_eq st q ia resp
  have h3 := update_lastq_eq st q ia resp
  constructor
  · intro hc
    refine ⟨?_, ?_, ?_⟩
    · rw [h2, hnew, hc]; rfl
    · rw [h1, hnew, hc]
      simp [hans]
    · rw [h3]
      simp [hnew, hans, hc]
  · intro hc
    refine ⟨?_, ?_, ?_⟩
    · rw [h1, hc]
      simp
    · rw [h3]
      simp [hnew, hans, hc]
    · rw [h2, hnew, hc]
      simp

theorem c4_amended_question_scan_witness :
    followup_career_intent.topic_details.is_new_topic = false
  ∧ followup_career_intent.intent ≠ "answer_received"
  ∧ ((containsQMark "Kitne time se chal raha hai?" = true →
        (update_conversation_state init_conversation_state "meri job ki problem hai"
          followup_career_intent "Kitne time se chal raha hai?").has_asked_questions = true
      ∧ (update_conversation_state init_conversation_state "meri job ki problem hai"
          followup_career_intent "Kitne time se chal raha hai?").waiting_for_answer = true
      ∧ (update_conversation_state init_conversation_state "meri job ki problem hai"
          followup_career_intent "Kitne time se chal raha hai?").last_question_asked =
          (match (extract_questions "Kitne time se chal raha hai?").getLast? with
           | some q0 => some (pyStrip q0)
           | none => init_conversation_state.last_question_asked))
    ∧ (containsQMark "Kitne time se chal raha hai?" = false →
        (update_conversation_state init_conversation_state "meri job ki problem hai"
          followup_career_intent "Kitne time se chal raha hai?").waiting_for_answer = false
      ∧ (update_conversation_state init_conversation_state "meri job ki problem hai"
          followup_career_intent "Kitne time se chal raha hai?").last_question_asked = none
      ∧ (update_conversation_state init_conversation_state "meri job ki problem hai"
          followup_career_intent "Kitne time se chal raha hai?").has_asked_questions
          = init_conversation_state.has_asked_questions)) :=
  ⟨by decide, by decide,
    c4_amended_question_scan init_conversation_state "meri job ki problem hai"
      followup_career_intent "Kitne time se chal raha hai?" (by decide) (by decide)⟩

/-- C5: when the session is waiting for an answer to a recorded question,
an utterance matching the number-plus-time-unit pattern is classified as
`answer_received`, carrying forward the stored topic, subtopic and
emotional tone and skipping every later classification check (the returned
record is exactly the answer branch's record). -/
theorem c5_number_time_short_circuit (st : ConvState) (user_query : String)
    (hist : List HMsg)
    (hw : st.waiting_for_answer = true)
    (hl : isTruthyOpt st.last_question_asked = true)
    (hn : hasNumTime (lower user_query) = true) :
    (analyze_query_intent st user_query hist).2 =
      { intent := "answer_received", urgency := "medium", needs_details := false,
        greeting_type := none,
        topic_details :=
          { topic := st.current_topic, subtopic := st.topic_context.subtopic,
            is_new_topic := false, needs_clarification := false,
            emotional_tone := st.topic_context.emotional_tone.getD "neutral" },
        language := detect_language user_query } := by
  obtain ⟨hc, hw2, hl2, htc, _⟩ := apply_language_vote_fields st hist
  have hia : is_answer_to_question user_query st.last_question_asked = true := by
    unfold is_answer_to_question
    rw [hl, if_pos rfl]
    simp only []
    rw [hn]
    simp
  simp only [analyze_query_intent, hc, hw2, hl2, htc, hw, hl, hia]
  simp

theorem c5_number_time_short_circuit_witness :
    (let st : ConvState :=
      { init_conversation_state with
          current_topic := some "career",
          has_asked_questions := true,
          waiting_for_answer := true,
          last_question_asked := some "Kitne time se problem hai?",
          topic_context := ⟨some "job_search", some "stressed"⟩ }
     st.waiting_for_answer = true
   ∧ isTruthyOpt st.last_question_asked = true
   ∧ hasNumTime (lower "3 mahine se") = true
   ∧ (analyze_query_intent st "3 mahine se" []).2 =
      { intent := "answer_received", urgency := "medium", needs_details := false,
        greeting_type := none,
        topic_details :=
          { topic := st.current_topic, subtopic := st.topic_context.subtopic,
            is_new_topic := false, needs_clarification := false,
            emotional_tone := st.topic_context.emotional_tone.getD "neutral" },
        language := detect_language "3 mahine se" }) :=
  ⟨by decide, by decide, by decide,
    c5_number_time_short_circuit _ "3 mahine se" [] (by decide) (by decide) (by decide)⟩

/-- C6 counterexample: the utterance `"kab se? 3 saal"` contains
interrogative markers (`?`, `kab`) and yet `_is_answer_to_question`
treats it as an answer, because the temporal and number-plus-time-unit
branches ignore the marker check — refuting the claim that the marker
check dominates. -/
theorem c6_counterexample :
    anyIn interrogative_markers (lower "kab se? 3 saal") = true
  ∧ is_answer_to_question "kab se? 3 saal" (some "Kitne time se problem hai?") = true := by
  constructor
  · decide
  · decide

/-- C6 (amended): the interrogative-marker check dominates only the
short-answer branch: when the utterance contains a marker, it is treated
as an answer exactly when it contains a temporal keyword, is a bare
affirmation/negation token, or matches the number-plus-time-unit pattern
(given a pending question). -/
theorem c6_amended_marker_scope (q : String) (lq : Option String)
    (hmark : anyIn interrogative_markers (lower q) = true) :
    is_answer_to_question q lq =
      (isTruthyOpt lq &&
        (anyIn time_indicators (lower q)
          || yes_no_tokens.contains (pyStrip (lower q))
          || hasNumTime (lower q))) := by
  unfold is_answer_to_question
  by_cases h : isTruthyOpt lq
  · rw [if_pos h, h]
    simp only []
    rw [hmark]
    simp
  · rw [if_neg h]
    simp only [Bool.not_eq_true] at h
    rw [h]
    simp

theorem c6_amended_marker_scope_witness :
    anyIn interrogative_markers (lower "kab se? 3 saal") = true
  ∧ is_answer_to_question "kab se? 3 saal" (some "Kitne time se problem hai?") =
      (isTruthyOpt (some "Kitne time se problem hai?") &&
        (anyIn time_indicators (lower "kab se? 3 saal")
          || yes_no_tokens.contains (pyStrip (lower "kab se? 3 saal"))
          || hasNumTime (lower "kab se? 3 saal"))) :=
  ⟨by decide, c6_amended_marker_scope "kab se? 3 saal" _ (by decide)⟩

/-- C7 counterexample: the initial preference is `hinglish`, the majority
vote over a Hindi-dominant history keeps it `hinglish` inside the
classifier, and yet a single English utterance flips the stored preference
to `english` after the post-reply state update — refuting the claim that a
single utterance can never flip it. -/
theorem c7_counterexample :
    init_conversation_state.language_preference = "hinglish"
  ∧ ((analyze_query_intent init_conversation_state
        "what should i do about my career"
        [⟨"user", "mujhe job nahi mil rahi kya karu"⟩,
         ⟨"user", "kitne mahine se pareshan hoon"⟩]).1).language_preference = "hinglish"
  ∧ (update_conversation_state
       (analyze_query_intent init_conversation_state
         "what should i do about my career"
         [⟨"user", "mujhe job nahi mil rahi kya karu"⟩,
          ⟨"user", "kitne mahine se pareshan hoon"⟩]).1
       "what should i do about my career"
       (analyze_query_intent init_conversation_state
         "what should i do about my career"
         [⟨"user", "mujhe job nahi mil rahi kya karu"⟩,
          ⟨"user", "kitne mahine se pareshan hoon"⟩]).2
       "Dekho Saturn strong hai aapke chart mein").language_preference = "english" := by
  refine ⟨rfl, ?_, ?_⟩
  · decide
  · decide

set_option maxHeartbeats 2000000 in
/-- C7 (amended): the classifier's majority vote over the last four history
turns writes the preference, but the post-reply state update then
overwrites `language_preference` with the intent record's language, which
is always the current utterance's detected language — so one utterance in
a different language does flip the stored preference. -/
theorem c7_amended_language_overwrite :
    (∀ (st : ConvState) (q : String) (ia : IntentAnalysis) (resp : String),
      (update_conversation_state st q ia resp).language_preference = ia.language)
  ∧ (∀ (st : ConvState) (q : String) (hist : List HMsg),
      ((analyze_query_intent st q hist).2).language = detect_language q) := by
  constructor
  · exact update_lang_eq
  · intro st q hist
    simp only [analyze_query_intent]
    split_ifs <;> rfl

lemma tag_money_topic (td : TopicDetails) (query : String) (p : Bool) :
    (tag_money td query p).topic =
      if anyIn money_words query then some "money" else td.topic := by
  simp only [tag_money]; split_ifs <;> rfl

lemma tag_career_topic (td : TopicDetails) (query : String) (p : Bool) :
    (tag_career td query p).topic =
      if anyIn career_words query then some "career" else td.topic := by
  simp only [tag_career]; split_ifs <;> rfl

lemma tag_legal_topic (td : TopicDetails) (query : String) :
    (tag_legal td query).topic =
      if anyIn legal_words query then some "legal" else td.topic := by
  simp only [tag_legal]; split_ifs <;> rfl

lemma tag_love_topic (td : TopicDetails) (query : String) (p : Bool) :
    (tag_love td query p).topic =
      if anyIn love_words query then some "love" else td.topic := by
  simp only [tag_love]; split_ifs <;> rfl

lemma tag_health_topic (td : TopicDetails) (query : String) :
    (tag_health td query).topic =
      if anyIn health_words query then some "health" else td.topic := by
  simp only [tag_health]; split_ifs <;> rfl

lemma tag_education_topic (td : TopicDetails) (query : String) (p : Bool) :
    (tag_education td query p).topic =
      if anyIn education_words query then some "education" else td.topic := by
  simp only [tag_education]; split_ifs <;> rfl

lemma tag_decision_topic (td : TopicDetails) (query : String) :
    (tag_decision td query).topic =
      if anyIn decision_words query then some "decision" else td.topic := by
  simp only [tag_decision]; split_ifs <;> rfl

/-- C8 counterexample: `"loan case chal raha hai court mein"` matches the
money set (`loan`) and the legal set (`case`, `court`); the earlier set of
the claim's order would give `money`, but the classifier assigns `legal`
because the later block overwrites the earlier one's topic. -/
theorem c8_counterexample :
    anyIn money_words (pyStrip (lower "loan case chal raha hai court mein")) = true
  ∧ anyIn legal_words (pyStrip (lower "loan case chal raha hai court mein")) = true
  ∧ ((analyze_query_intent init_conversation_state
        "loan case chal raha hai court mein" []).2).intent = "consultation"
  ∧ ((analyze_query_intent init_conversation_state
        "loan case chal raha hai court mein" []).2).topic_details.topic
      = some "legal" := by
  refine ⟨by decide, by decide, by decide, by decide⟩

/-- Follows the amended claim's words: the topic assigned by the tagging
cascade, stated as a first-match scan in the reverse order decision,
education, health, love, legal, career, money. -/
def lastMatchTopic (query : String) : String :=
  if anyIn decision_words query then "decision"
  else if anyIn education_words query then "education"
  else if anyIn health_words query then "health"
  else if anyIn love_words query then "love"
  else if anyIn legal_words query then "legal"
  else if anyIn career_words query then "career"
  else if anyIn money_words query then "money"
  else "general"

/-- C8 (amended): the per-topic keyword blocks are applied in the order
money, career, legal, love, health, education, decision, each matching
block overwriting the topic, so the LAST matching set in that order (the
first in the reverse order) determines the assigned topic. -/
theorem c8_amended_last_match_wins (query : String) (is_problem : Bool) :
    (computeTopicDetails query is_problem).topic = some (lastMatchTopic query) := by
  unfold computeTopicDetails lastMatchTopic
  rw [tag_decision_topic, tag_education_topic, tag_health_topic, tag_love_topic,
    tag_legal_topic, tag_career_topic, tag_money_topic]
  split_ifs <;> rfl

/-- C9: the formatter caps the number of delimiter-separated segments by
intent kind — greeting/acknowledgment at most 2, gratitude at most 1,
consultation/answer_received/remedy_request at most 3, a single segment
below the 15-word threshold being kept as-is — and a raw reply with five
delimiter-separated segments under `consultation` normalizes to exactly
three segments. -/
theorem c9_segment_caps (response : String) :
    (capped_messages (cleaned_messages response) "greeting").length ≤ 2
  ∧ (capped_messages (cleaned_messages response) "acknowledgment").length ≤ 2
  ∧ (capped_messages (cleaned_messages response) "gratitude").length ≤ 1
  ∧ (capped_messages (cleaned_messages response) "consultation").length ≤ 3
  ∧ (capped_messages (cleaned_messages response) "answer_received").length ≤ 3
  ∧ (capped_messages (cleaned_messages response) "remedy_request").length ≤ 3
  ∧ (∀ intent, clean_chat_response response intent =
      (if response = "" then response
       else joinSep "|||" (capped_messages (cleaned_messages response) intent)))
  ∧ capped_messages ["Theek hai ji"] "consultation" = ["Theek hai ji"]
  ∧ clean_chat_response
      "Dekho kundali|||Saturn strong hai|||Career growth hogi|||Patience rakho|||Sab accha hoga"
      "consultation"
      = "Dekho kundali|||Saturn strong hai|||Career growth hogi"
  ∧ (splitBars [] ("Dekho kundali|||Saturn strong hai|||Career growth hogi|||Patience rakho|||Sab accha hoga").toList).length = 5
  ∧ (splitBars []
      (clean_chat_response
        "Dekho kundali|||Saturn strong hai|||Career growth hogi|||Patience rakho|||Sab accha hoga"
        "consultation").toList).length = 3 := by
  refine ⟨?_, ?_, ?_, ?_, ?_, ?_, fun intent => rfl, by decide, by decide, by decide,
    by decide⟩ <;>
    · simp only [capped_messages]
      split_ifs <;> simp_all [List.length_take]

/-- C10: whenever the identity guard intercepts a query,
`generate_response` returns the guard's canned persona reply with all
cache-statistics fields zero and the intercepted flag set, makes no
generation-backend call, and leaves the conversation state unchanged. -/
theorem c10_guard_interception_frame (st : ConvState) (use_caching : Bool)
    (char_name char_desc : String) (user_id : Option Nat) (user_query : String)
    (a : BuildArgs) (backend : List Msg → Except PyError (String × CacheStats))
    (orig : Outcome) (hq : user_query ≠ "") :
    generate_response st use_caching true true char_name char_desc user_id
      user_query a backend orig =
      { result := Except.ok
          { response := get_character_response st.language_preference char_name char_desc,
            cache_stats := zero_cache_stats, intercepted := true },
        backend_called := false, final_state := st } := by
  simp [generate_response, intercept_if_needed, hq]

theorem c10_guard_interception_frame_witness :
    ("aap AI ho kya" : String) ≠ ""
  ∧ generate_response init_conversation_state true true true
      "Astra" "Vedic astrology consultant" (some 7) "aap AI ho kya"
      { current_query := "aap AI ho kya", natal_context := "chart",
        transit_context := "", system_prompt := some "prompt",
        character_prompt := "char", user_facts := [], recent_messages := [] }
      (fun _ => Except.error (PyError.apiError "backend unavailable"))
      { result := Except.error (PyError.apiError "unused"),
        backend_called := false, final_state := init_conversation_state } =
      { result := Except.ok
          { response := get_character_response
              init_conversation_state.language_preference
              "Astra" "Vedic astrology consultant",
            cache_stats := zero_cache_stats, intercepted := true },
        backend_called := false, final_state := init_conversation_state } :=
  ⟨by decide,
    c10_guard_interception_frame init_conversation_state true "Astra"
      "Vedic astrology consultant" (some 7) "aap AI ho kya" _ _ _ (by decide)⟩

end AstroBridge
